import Mathlib

/-
Shallow embedding of the VC4CL mailbox channel (src/src/Mailbox.cpp) and the
baseline event actions (src/src/Event.h).

The mailbox channel sends fixed-shape property messages to the firmware through
a single ioctl per operation.  The firmware (together with the kernel ioctl
layer) is modelled as a pure oracle mapping each request message to an outcome:
the ioctl return value, the value of errno at that point, and the response
content words that the firmware wrote in place over the request words.
`throw std::system_error(errno, ...)` is modelled as `Except.error errno`.

Side effects that matter to the claims (which mailbox messages were sent, which
host mappings were created or removed) are returned as an explicit trace.
-/

namespace VC4CL

/-- Tags of the property messages used by Mailbox.cpp.  Their numeric wire
values live in the firmware headers and are irrelevant to the claims; only
their identity matters. -/
inductive MailboxTag where
  | allocateMemory
  | lockMemory
  | unlockMemory
  | releaseMemory
  | executeCode
  | executeQPU
  | enableQPU
  | vcMemory
deriving DecidableEq, Repr

/-- A property message: its tag and its request words (32-bit values modelled
as Nat).  The fixed framing words (total size, request code, tag sizes, end
marker) are determined by the tag and the request words and carry no
information for the claims. -/
structure MboxMsg where
  tag : MailboxTag
  req : List Nat
deriving DecidableEq, Repr

/-- Outcome of the single ioctl of `Mailbox::mailboxCall` for a given request:
the ioctl return value, the errno value observed on failure, and the response
content words (`msg.getContent(i)` reads word `i`). -/
structure IoctlOutcome where
  ret : Int
  errno : Int
  content : Nat → Nat

/-- The firmware/kernel oracle: each request message gets one outcome. -/
abbrev Fw := MboxMsg → IoctlOutcome

/-- Observable side effects of the channel operations. -/
inductive TraceEvent where
  | mbox (msg : MboxMsg)
  | map (physAddr size : Nat)
  | unmap (hostPtr size : Nat)
deriving DecidableEq, Repr

/-- Mailbox::mailboxCall (Mailbox.cpp:178-203): performs exactly one ioctl; a
negative return value throws `std::system_error(errno, ...)`, otherwise the
return value is passed back unchanged together with the in-place response. -/
def mailboxCall (fw : Fw) (buffer : MboxMsg) : Except Int (Int × (Nat → Nat)) × List TraceEvent :=
  let r := fw buffer
  ((if r.ret < 0 then .error r.errno else .ok (r.ret, r.content)), [.mbox buffer])

/-- Request message built by Mailbox::memAlloc (Mailbox.cpp:221). -/
def allocMsg (sizeInBytes alignmentInBytes flags : Nat) : MboxMsg :=
  ⟨.allocateMemory, [sizeInBytes, alignmentInBytes, flags]⟩

/-- Request message built by Mailbox::memLock (Mailbox.cpp:229). -/
def lockMsg (handle : Nat) : MboxMsg := ⟨.lockMemory, [handle]⟩

/-- Request message built by Mailbox::memUnlock (Mailbox.cpp:237). -/
def unlockMsg (handle : Nat) : MboxMsg := ⟨.unlockMemory, [handle]⟩

/-- Request message built by Mailbox::memFree (Mailbox.cpp:245). -/
def freeMsg (handle : Nat) : MboxMsg := ⟨.releaseMemory, [handle]⟩

/-- Request message built by Mailbox::executeCode (Mailbox.cpp:141). -/
def execCodeMsg (codeAddress valueR0 valueR1 valueR2 valueR3 valueR4 valueR5 : Nat) : MboxMsg :=
  ⟨.executeCode, [codeAddress, valueR0, valueR1, valueR2, valueR3, valueR4, valueR5]⟩

/-- Request message built by Mailbox::executeQPU (Mailbox.cpp:160): the words
are numQPUs, controlAddress.second, the inverted flush flag, and
`static_cast<unsigned>(timeout.count())`, i.e. the 64-bit millisecond count
reduced modulo 2^32. -/
def execQPUMsg (numQPUs : Nat) (controlAddress : Nat × Nat) (flushBuffer : Bool) (timeout : Int) : MboxMsg :=
  ⟨.executeQPU, [numQPUs, controlAddress.2, if flushBuffer then 0 else 1, (timeout % 4294967296).toNat]⟩

/-- Request message built by Mailbox::enableQPU (Mailbox.cpp:207). -/
def enableMsg (enable : Bool) : MboxMsg := ⟨.enableQPU, [if enable then 1 else 0]⟩

/-- Mailbox::memAlloc (Mailbox.cpp:219-225): one mailbox call; returns 0 when
the call reported a negative value, otherwise content word 0 (the handle). -/
def memAlloc (fw : Fw) (sizeInBytes alignmentInBytes flags : Nat) : Except Int Nat × List TraceEvent :=
  let call := mailboxCall fw (allocMsg sizeInBytes alignmentInBytes flags)
  (match call.1 with
   | .error e => .error e
   | .ok (ret, content) => if ret < 0 then .ok 0 else .ok (content 0), call.2)

/-- Mailbox::memLock (Mailbox.cpp:227-233): one mailbox call; yields the bus
address (DevicePointer) from content word 0, or DevicePointer(0) on a negative
call result. -/
def memLock (fw : Fw) (handle : Nat) : Except Int Nat × List TraceEvent :=
  let call := mailboxCall fw (lockMsg handle)
  (match call.1 with
   | .error e => .error e
   | .ok (ret, content) => if ret < 0 then .ok 0 else .ok (content 0), call.2)

/-- Mailbox::memUnlock (Mailbox.cpp:235-241): success means content word 0 is
zero. -/
def memUnlock (fw : Fw) (handle : Nat) : Except Int Bool × List TraceEvent :=
  let call := mailboxCall fw (unlockMsg handle)
  (match call.1 with
   | .error e => .error e
   | .ok (ret, content) => if ret < 0 then .ok false else .ok (content 0 == 0), call.2)

/-- Mailbox::memFree (Mailbox.cpp:243-249): success means content word 0 is
zero. -/
def memFree (fw : Fw) (handle : Nat) : Except Int Bool × List TraceEvent :=
  let call := mailboxCall fw (freeMsg handle)
  (match call.1 with
   | .error e => .error e
   | .ok (ret, content) => if ret < 0 then .ok false else .ok (content 0 == 0), call.2)

/-- Mailbox::executeCode (Mailbox.cpp:139-145): success means content word 0 is
zero. -/
def executeCode (fw : Fw) (codeAddress valueR0 valueR1 valueR2 valueR3 valueR4 valueR5 : Nat) :
    Except Int Bool × List TraceEvent :=
  let call := mailboxCall fw (execCodeMsg codeAddress valueR0 valueR1 valueR2 valueR3 valueR4 valueR5)
  (match call.1 with
   | .error e => .error e
   | .ok (ret, content) => if ret < 0 then .ok false else .ok (content 0 == 0), call.2)

/-- Mailbox::executeQPU (Mailbox.cpp:147-164) as compiled WITHOUT DEBUG_MODE:
the whole body of the oversized-timeout guard, including its `return false`,
sits inside `#ifdef DEBUG_MODE` (lines 151-154), so in a regular build the
guard is an empty statement and the mailbox call is always issued, with the
timeout truncated modulo 2^32 by the cast in the message. -/
def executeQPU (fw : Fw) (numQPUs : Nat) (controlAddress : Nat × Nat) (flushBuffer : Bool)
    (timeout : Int) : Except Int Bool × List TraceEvent :=
  let call := mailboxCall fw (execQPUMsg numQPUs controlAddress flushBuffer timeout)
  (match call.1 with
   | .error e => .error e
   | .ok (ret, content) => if ret < 0 then .ok false else .ok (content 0 == 0), call.2)

/-- Mailbox::executeQPU as compiled WITH DEBUG_MODE: the guard body is present,
so a timeout whose millisecond count exceeds 0xFFFFFFFF returns false before
any mailbox call. -/
def executeQPUDebugMode (fw : Fw) (numQPUs : Nat) (controlAddress : Nat × Nat) (flushBuffer : Bool)
    (timeout : Int) : Except Int Bool × List TraceEvent :=
  if timeout > 0xFFFFFFFF then (.ok false, [])
  else executeQPU fw numQPUs controlAddress flushBuffer timeout

/-- Mailbox::enableQPU (Mailbox.cpp:205-217): success means content word 0 is
zero, or the sentinel 0x80000000 meaning the QPUs were already enabled or
disabled by another reference holder. -/
def enableQPU (fw : Fw) (enable : Bool) : Except Int Bool × List TraceEvent :=
  let call := mailboxCall fw (enableMsg enable)
  (match call.1 with
   | .error e => .error e
   | .ok (ret, content) =>
      if ret < 0 then .ok false else .ok (content 0 == 0 || content 0 == 0x80000000), call.2)

/-- Mailbox::checkReturnValue (Mailbox.cpp:251-269): the high bit must be set
and the value must be exactly 0x80000000; any other value is failure. -/
def checkReturnValue (value : Nat) : Bool :=
  if value >>> 31 ≠ 0 then value == 0x80000000 else false

/-- Modelled from the spec: `PAGE_ALIGNMENT` is declared in the missing header
Mailbox.h.  The spec names it the host virtual-memory page size, and the
comment at Mailbox.cpp:108 gives the system page size as 4096. -/
def PAGE_ALIGNMENT : Nat := 4096

/-- DeviceBuffer fields (constructor at Mailbox.cpp:53-55): hardware handle,
device (bus) pointer, host mapping pointer (0 models nullptr), byte size. -/
structure DeviceBuffer where
  memHandle : Nat
  qpuPointer : Nat
  hostPointer : Nat
  size : Nat
deriving DecidableEq, Repr

/-- Mailbox::allocateBuffer (Mailbox.cpp:106-120): memAlloc with the alignment
raised to `std::max(PAGE_ALIGNMENT, alignmentInBytes)`; when the handle is
nonzero, memLock and then mapmem of the translated physical address, and a
DeviceBuffer is built from the results without checking them; when the handle
is zero, nullptr (modelled as `none`).  `busToPhys` models
V3D::busAddressToPhysicalAddress and `mapmem` the host-mapping call, both
declared in headers outside src/. -/
def allocateBuffer (fw : Fw) (busToPhys : Nat → Nat) (mapmem : Nat → Nat → Nat)
    (sizeInBytes alignmentInBytes flags : Nat) : Except Int (Option DeviceBuffer) × List TraceEvent :=
  let alloc := memAlloc fw sizeInBytes (max PAGE_ALIGNMENT alignmentInBytes) flags
  match alloc.1 with
  | .error e => (.error e, alloc.2)
  | .ok handle =>
    if handle ≠ 0 then
      let lock := memLock fw handle
      match lock.1 with
      | .error e => (.error e, alloc.2 ++ lock.2)
      | .ok qpuPointer =>
        let hostPointer := mapmem (busToPhys qpuPointer) sizeInBytes
        (.ok (some ⟨handle, qpuPointer, hostPointer, sizeInBytes⟩),
         alloc.2 ++ lock.2 ++ [.map (busToPhys qpuPointer) sizeInBytes])
    else (.ok none, alloc.2)

/-- Mailbox::deallocateBuffer (Mailbox.cpp:122-137): unmap the host pointer if
nonnull, then, if the handle is nonzero, memUnlock and memFree, stopping on
the first false.  The parameter is a `const DeviceBuffer*`, so the function
cannot modify the buffer: the middle component is the buffer state after the
call, which is always the unchanged input. -/
def deallocateBuffer (fw : Fw) (buffer : DeviceBuffer) :
    Except Int Bool × DeviceBuffer × List TraceEvent :=
  let unmapTrace : List TraceEvent :=
    if buffer.hostPointer ≠ 0 then [.unmap buffer.hostPointer buffer.size] else []
  if buffer.memHandle ≠ 0 then
    let unlock := memUnlock fw buffer.memHandle
    match unlock.1 with
    | .error e => (.error e, buffer, unmapTrace ++ unlock.2)
    | .ok false => (.ok false, buffer, unmapTrace ++ unlock.2)
    | .ok true =>
      let freed := memFree fw buffer.memHandle
      match freed.1 with
      | .error e => (.error e, buffer, unmapTrace ++ unlock.2 ++ freed.2)
      | .ok ok => (.ok ok, buffer, unmapTrace ++ unlock.2 ++ freed.2)
  else (.ok true, buffer, unmapTrace)

/-- DeviceBuffer::~DeviceBuffer (Mailbox.cpp:57-61): calls deallocateBuffer
whenever the handle field is nonzero.  Returns the trace of the calls it
issues. -/
def DeviceBuffer.destructor (fw : Fw) (buffer : DeviceBuffer) : List TraceEvent :=
  if buffer.memHandle ≠ 0 then (deallocateBuffer fw buffer).2.2 else []

/-- Mailbox::getTotalGPUMemory (Mailbox.cpp:166-173).  Modelled from the spec:
`readMailboxMessage` is declared in the missing header Mailbox.h; per the spec
the query either fails (modelled `none`) or yields the response content words
(modelled `some content`).  On failure the function returns 0, otherwise half
of content word 1, the firmware-reported graphics memory size. -/
def getTotalGPUMemory (query : Option (Nat → Nat)) : Nat :=
  match query with
  | none => 0
  | some content => content 1 / 2

/-- Variant of memAlloc without the dead negative-result guard, used to state
that the guard is unreachable. -/
def memAllocNoGuard (fw : Fw) (sizeInBytes alignmentInBytes flags : Nat) :
    Except Int Nat × List TraceEvent :=
  let call := mailboxCall fw (allocMsg sizeInBytes alignmentInBytes flags)
  (match call.1 with
   | .error e => .error e
   | .ok (_, content) => .ok (content 0), call.2)

/-- Variant of memLock without the dead negative-result guard. -/
def memLockNoGuard (fw : Fw) (handle : Nat) : Except Int Nat × List TraceEvent :=
  let call := mailboxCall fw (lockMsg handle)
  (match call.1 with
   | .error e => .error e
   | .ok (_, content) => .ok (content 0), call.2)

/-- Variant of memUnlock without the dead negative-result guard. -/
def memUnlockNoGuard (fw : Fw) (handle : Nat) : Except Int Bool × List TraceEvent :=
  let call := mailboxCall fw (unlockMsg handle)
  (match call.1 with
   | .error e => .error e
   | .ok (_, content) => .ok (content 0 == 0), call.2)

/-- Variant of memFree without the dead negative-result guard. -/
def memFreeNoGuard (fw : Fw) (handle : Nat) : Except Int Bool × List TraceEvent :=
  let call := mailboxCall fw (freeMsg handle)
  (match call.1 with
   | .error e => .error e
   | .ok (_, content) => .ok (content 0 == 0), call.2)

/-- Variant of executeCode without the dead negative-result guard. -/
def executeCodeNoGuard (fw : Fw) (codeAddress valueR0 valueR1 valueR2 valueR3 valueR4 valueR5 : Nat) :
    Except Int Bool × List TraceEvent :=
  let call := mailboxCall fw (execCodeMsg codeAddress valueR0 valueR1 valueR2 valueR3 valueR4 valueR5)
  (match call.1 with
   | .error e => .error e
   | .ok (_, content) => .ok (content 0 == 0), call.2)

/-- Variant of executeQPU without the dead negative-result guard. -/
def executeQPUNoGuard (fw : Fw) (numQPUs : Nat) (controlAddress : Nat × Nat) (flushBuffer : Bool)
    (timeout : Int) : Except Int Bool × List TraceEvent :=
  let call := mailboxCall fw (execQPUMsg numQPUs controlAddress flushBuffer timeout)
  (match call.1 with
   | .error e => .error e
   | .ok (_, content) => .ok (content 0 == 0), call.2)

/-- Variant of enableQPU without the dead negative-result guard. -/
def enableQPUNoGuard (fw : Fw) (enable : Bool) : Except Int Bool × List TraceEvent :=
  let call := mailboxCall fw (enableMsg enable)
  (match call.1 with
   | .error e => .error e
   | .ok (_, content) => .ok (content 0 == 0 || content 0 == 0x80000000), call.2)

/-- True exactly on the trace events that release a locked handle: the
unlock-memory and release-memory mailbox messages. -/
def TraceEvent.isHandleRelease : TraceEvent → Bool
  | .mbox msg => msg.tag == .unlockMemory || msg.tag == .releaseMemory
  | _ => false

/-- The two baseline event actions of Event.h: NoAction (Event.h:111-120)
stores a fixed status at construction, CustomAction (Event.h:96-106) stores a
caller-supplied function; the event handle type is opaque to both. -/
inductive EventAction (Ev : Type) where
  | noAction (status : Int)
  | customAction (func : Ev → Int)

/-- The invocation operator of the two actions: NoAction returns its stored
status (Event.h:116-119), CustomAction returns `func(event)`
(Event.h:102-105). -/
def EventAction.run {Ev : Type} : EventAction Ev → Ev → Int
  | .noAction status, _ => status
  | .customAction func, event => func event

/-- Firmware oracle answering every request with ioctl result 0 and all
content words 0. -/
def fwOkZero : Fw := fun _ => ⟨0, 0, fun _ => 0⟩

/-- Firmware oracle where allocation succeeds with handle 5 but locking yields
the null device address 0 (the failure sentinel of the lock operation). -/
def fwAllocLockFail : Fw := fun msg =>
  match msg.tag with
  | .allocateMemory => ⟨0, 0, fun _ => 5⟩
  | _ => ⟨0, 0, fun _ => 0⟩

/-- Firmware oracle for a successful allocate/lock round trip: allocation
yields handle 5, locking yields bus address 4096, every other request succeeds
with content 0. -/
def fwRoundTrip : Fw := fun msg =>
  match msg.tag with
  | .allocateMemory => ⟨0, 0, fun _ => 5⟩
  | .lockMemory => ⟨0, 0, fun _ => 4096⟩
  | _ => ⟨0, 0, fun _ => 0⟩

theorem memAlloc_trace (fw : Fw) (s a f : Nat) :
    (memAlloc fw s a f).2 = [.mbox (allocMsg s a f)] := rfl

theorem memLock_trace (fw : Fw) (handle : Nat) :
    (memLock fw handle).2 = [.mbox (lockMsg handle)] := rfl

theorem memUnlock_trace (fw : Fw) (handle : Nat) :
    (memUnlock fw handle).2 = [.mbox (unlockMsg handle)] := rfl

theorem memFree_trace (fw : Fw) (handle : Nat) :
    (memFree fw handle).2 = [.mbox (freeMsg handle)] := rfl

theorem deallocateBuffer_post (fw : Fw) (buffer : DeviceBuffer) :
    (deallocateBuffer fw buffer).2.1 = buffer := by
  unfold deallocateBuffer
  by_cases hb : buffer.memHandle ≠ 0
  · rcases hu : (memUnlock fw buffer.memHandle).1 with e | b
    · simp [hu, hb]
    · cases b
      · simp [hu, hb]
      · rcases hf : (memFree fw buffer.memHandle).1 with e2 | b2
        · simp [hu, hf, hb]
        · simp [hu, hf, hb]
  · simp [hb]

/-- C1: in the shipped code the oversized-timeout rejection of
Mailbox::executeQPU exists only under DEBUG_MODE; in a regular build a timeout
of 0x100000000 milliseconds is NOT rejected: exactly one mailbox call is
issued, with the timeout word silently truncated to 0.  The debug-build
variant does reject before any call, matching the stated intent, which makes
the regular-build behaviour a slip in the code. -/
theorem executeQPU_timeout_overflow_not_rejected :
    executeQPU fwOkZero 1 (0, 48879) true 4294967296 =
      (.ok true, [.mbox (execQPUMsg 1 (0, 48879) true 4294967296)]) ∧
    execQPUMsg 1 (0, 48879) true 4294967296 = ⟨.executeQPU, [1, 48879, 0, 0]⟩ ∧
    executeQPUDebugMode fwOkZero 1 (0, 48879) true 4294967296 = (.ok false, []) := by
  refine ⟨?_, ?_, ?_⟩ <;> rfl

/-- C2 counterexample: with a firmware where allocation succeeds with handle 5
but the lock step fails (null device address) and the host mapping also fails
(null pointer), Mailbox::allocateBuffer still returns a non-null DeviceBuffer,
and its trace holds no unlock or release-memory message: the claim that it
returns null on any failure and releases the handle first is false. -/
theorem allocateBuffer_lock_failure_not_null :
    allocateBuffer fwAllocLockFail (fun x => x) (fun _ _ => 0) 64 16 4 =
      (.ok (some ⟨5, 0, 0, 64⟩),
       [.mbox (allocMsg 64 4096 4), .mbox (lockMsg 5), .map 0 64]) := by
  rfl

/-- C3 counterexample: releasing a freshly allocated buffer (handle 5, host
pointer 8192) succeeds, but the buffer state afterwards still carries handle 5
and host pointer 8192 — nothing is zeroed (the function takes the buffer by
const pointer) — and a second release through the destructor path re-issues
the unmap, unlock and release-memory operations instead of being a no-op. -/
theorem deallocateBuffer_not_zeroing_and_reissues :
    deallocateBuffer fwRoundTrip ⟨5, 4096, 8192, 64⟩ =
      (.ok true, ⟨5, 4096, 8192, 64⟩,
       [.unmap 8192 64, .mbox (unlockMsg 5), .mbox (freeMsg 5)]) ∧
    DeviceBuffer.destructor fwRoundTrip
        (deallocateBuffer fwRoundTrip ⟨5, 4096, 8192, 64⟩).2.1 =
      [.unmap 8192 64, .mbox (unlockMsg 5), .mbox (freeMsg 5)] := by
  refine ⟨?_, ?_⟩ <;> rfl

/-- C7: Mailbox::getTotalGPUMemory returns 0 when the underlying query fails,
and otherwise exactly the firmware-reported graphics-memory size word divided
by two. -/
theorem getTotalGPUMemory_half_or_zero :
    getTotalGPUMemory none = 0 ∧
    ∀ content : Nat → Nat, getTotalGPUMemory (some content) = content 1 / 2 :=
  ⟨rfl, fun _ => rfl⟩

/-- C8: NoAction returns the status fixed at construction for every event, and
CustomAction returns exactly the value of the caller-supplied function on the
event. -/
theorem eventAction_run_spec :
    ∀ (Ev : Type) (status : Int) (func : Ev → Int) (event : Ev),
      EventAction.run (.noAction status) event = status ∧
      EventAction.run (.customAction func) event = func event :=
  fun _ _ _ _ => ⟨rfl, rfl⟩

/-- C9: over the 32-bit domain of the unsigned argument,
Mailbox::checkReturnValue returns true exactly on the value 0x80000000: every
value with the high bit clear fails, and every high-bit value other than
0x80000000 (such as 0x80000001 or 0x80000002) fails as well. -/
theorem checkReturnValue_iff (value : Nat) (h : value < 4294967296) :
    checkReturnValue value = true ↔ value = 2147483648 := by
  unfold checkReturnValue
  by_cases hs : value >>> 31 ≠ 0
  · simp [hs]
  · rw [if_neg hs]
    simp only [Bool.false_eq_true, false_iff]
    intro hv
    subst hv
    exact hs (by decide)

/-- Witness for C9 at the concrete input 0x80000001: a high-bit value other
than the sentinel is reported as failure. -/
theorem checkReturnValue_iff_witness :
    checkReturnValue 2147483649 = true ↔ (2147483649 : Nat) = 2147483648 :=
  checkReturnValue_iff 2147483649 (by decide)

/-- C2 amended: Mailbox::allocateBuffer returns null exactly when the initial
memory allocation reports handle 0; when the allocation succeeds, the lock and
host-mapping results are not checked — a non-null buffer is returned even when
they fail — and the handle is never released on this path (no unlock or
release-memory message appears in the trace of any run). -/
theorem allocateBuffer_null_iff_alloc_failed :
    ∀ (fw : Fw) (busToPhys : Nat → Nat) (mapmem : Nat → Nat → Nat) (s a f : Nat),
      ((allocateBuffer fw busToPhys mapmem s a f).1 = .ok none ↔
        (memAlloc fw s (max PAGE_ALIGNMENT a) f).1 = .ok 0) ∧
      (allocateBuffer fw busToPhys mapmem s a f).2.all
        (fun ev => !(TraceEvent.isHandleRelease ev)) = true := by
  intro fw busToPhys mapmem s a f
  unfold allocateBuffer
  rcases hm : (memAlloc fw s (max PAGE_ALIGNMENT a) f).1 with e | handle
  · simp [hm, memAlloc_trace, TraceEvent.isHandleRelease, allocMsg]
  · by_cases hh : handle ≠ 0
    · rcases hl : (memLock fw handle).1 with e2 | q
      · simp [hm, hl, hh, memAlloc_trace, memLock_trace, TraceEvent.isHandleRelease,
          allocMsg, lockMsg]
      · simp [hm, hl, hh, memAlloc_trace, memLock_trace, TraceEvent.isHandleRelease,
          allocMsg, lockMsg]
    · simp only [ne_eq, not_not] at hh
      subst hh
      simp [hm, memAlloc_trace, TraceEvent.isHandleRelease, allocMsg]

/-- C3 amended: Mailbox::deallocateBuffer takes the buffer by const pointer
and leaves its handle and host pointer unchanged rather than zeroed; releasing
the same buffer object a second time therefore repeats the very same unmap,
unlock and free operations instead of being a no-op; and the release itself
does not throw and returns true whenever the underlying unlock and free calls
succeed with content word 0. -/
theorem deallocateBuffer_const_and_repeat :
    ∀ (fw : Fw) (buffer : DeviceBuffer),
      (deallocateBuffer fw buffer).2.1 = buffer ∧
      deallocateBuffer fw (deallocateBuffer fw buffer).2.1 = deallocateBuffer fw buffer ∧
      (0 ≤ (fw (unlockMsg buffer.memHandle)).ret →
       (fw (unlockMsg buffer.memHandle)).content 0 = 0 →
       0 ≤ (fw (freeMsg buffer.memHandle)).ret →
       (fw (freeMsg buffer.memHandle)).content 0 = 0 →
       (deallocateBuffer fw buffer).1 = .ok true) := by
  intro fw buffer
  refine ⟨deallocateBuffer_post fw buffer, ?_, ?_⟩
  · rw [deallocateBuffer_post fw buffer]
  · intro h1 h2 h3 h4
    by_cases hb : buffer.memHandle ≠ 0
    · have hu : (memUnlock fw buffer.memHandle).1 = .ok true := by
        simp [memUnlock, mailboxCall, not_lt.mpr h1, h2]
      have hf : (memFree fw buffer.memHandle).1 = .ok true := by
        simp [memFree, mailboxCall, not_lt.mpr h3, h4]
      simp [deallocateBuffer, hb, hu, hf]
    · simp [deallocateBuffer, hb]

/-- Witness for the amended C3 at a concrete buffer and an all-succeeding
firmware: the release returns true and the buffer keeps its nonzero handle. -/
theorem deallocateBuffer_const_and_repeat_witness :
    (deallocateBuffer fwRoundTrip ⟨5, 4096, 8192, 64⟩).2.1 = ⟨5, 4096, 8192, 64⟩ ∧
    (deallocateBuffer fwRoundTrip ⟨5, 4096, 8192, 64⟩).1 = .ok true := by
  have h := deallocateBuffer_const_and_repeat fwRoundTrip ⟨5, 4096, 8192, 64⟩
  exact ⟨h.1, h.2.2 (by decide) (by decide) (by decide) (by decide)⟩

/-- C4: every mailbox operation surfaces a negative ioctl return as the thrown
system error carrying the OS error code, and surfaces a successful call purely
through its response content as an ordinary boolean/zero/null value, never
abruptly: the result of each operation is exactly the error with errno when
the ioctl return is negative, and otherwise the ordinary value computed from
the response content words. -/
theorem mailbox_ops_failure_surfacing : ∀ fw : Fw,
    (∀ s a f : Nat, (memAlloc fw s a f).1 =
      if (fw (allocMsg s a f)).ret < 0 then .error (fw (allocMsg s a f)).errno
      else .ok ((fw (allocMsg s a f)).content 0)) ∧
    (∀ handle : Nat, (memLock fw handle).1 =
      if (fw (lockMsg handle)).ret < 0 then .error (fw (lockMsg handle)).errno
      else .ok ((fw (lockMsg handle)).content 0)) ∧
    (∀ handle : Nat, (memUnlock fw handle).1 =
      if (fw (unlockMsg handle)).ret < 0 then .error (fw (unlockMsg handle)).errno
      else .ok ((fw (unlockMsg handle)).content 0 == 0)) ∧
    (∀ handle : Nat, (memFree fw handle).1 =
      if (fw (freeMsg handle)).ret < 0 then .error (fw (freeMsg handle)).errno
      else .ok ((fw (freeMsg handle)).content 0 == 0)) ∧
    (∀ ca r0 r1 r2 r3 r4 r5 : Nat, (executeCode fw ca r0 r1 r2 r3 r4 r5).1 =
      if (fw (execCodeMsg ca r0 r1 r2 r3 r4 r5)).ret < 0 then
        .error (fw (execCodeMsg ca r0 r1 r2 r3 r4 r5)).errno
      else .ok ((fw (execCodeMsg ca r0 r1 r2 r3 r4 r5)).content 0 == 0)) ∧
    (∀ (n : Nat) (ctrl : Nat × Nat) (fl : Bool) (t : Int), (executeQPU fw n ctrl fl t).1 =
      if (fw (execQPUMsg n ctrl fl t)).ret < 0 then .error (fw (execQPUMsg n ctrl fl t)).errno
      else .ok ((fw (execQPUMsg n ctrl fl t)).content 0 == 0)) ∧
    (∀ en : Bool, (enableQPU fw en).1 =
      if (fw (enableMsg en)).ret < 0 then .error (fw (enableMsg en)).errno
      else .ok ((fw (enableMsg en)).content 0 == 0 ||
                (fw (enableMsg en)).content 0 == 0x80000000)) := by
  intro fw
  refine ⟨?_, ?_, ?_, ?_, ?_, ?_, ?_⟩
  · intro s a f
    by_cases hr : (fw (allocMsg s a f)).ret < 0 <;> simp [memAlloc, mailboxCall, hr]
  · intro handle
    by_cases hr : (fw (lockMsg handle)).ret < 0 <;> simp [memLock, mailboxCall, hr]
  · intro handle
    by_cases hr : (fw (unlockMsg handle)).ret < 0 <;> simp [memUnlock, mailboxCall, hr]
  · intro handle
    by_cases hr : (fw (freeMsg handle)).ret < 0 <;> simp [memFree, mailboxCall, hr]
  · intro ca r0 r1 r2 r3 r4 r5
    by_cases hr : (fw (execCodeMsg ca r0 r1 r2 r3 r4 r5)).ret < 0 <;>
      simp [executeCode, mailboxCall, hr]
  · intro n ctrl fl t
    by_cases hr : (fw (execQPUMsg n ctrl fl t)).ret < 0 <;> simp [executeQPU, mailboxCall, hr]
  · intro en
    by_cases hr : (fw (enableMsg en)).ret < 0 <;> simp [enableQPU, mailboxCall, hr]

/-- C5: Mailbox::enableQPU returns true exactly when the ioctl succeeds and
the response content word is 0 or the sentinel 0x80000000, so enabling the
QPUs when another reference holder already enabled them (sentinel response) is
reported as success. -/
theorem enableQPU_success_iff : ∀ (fw : Fw) (enable : Bool),
    (enableQPU fw enable).1 = .ok true ↔
      0 ≤ (fw (enableMsg enable)).ret ∧
      ((fw (enableMsg enable)).content 0 = 0 ∨
       (fw (enableMsg enable)).content 0 = 2147483648) := by
  intro fw enable
  by_cases hr : (fw (enableMsg enable)).ret < 0
  · simp [enableQPU, mailboxCall, hr, not_le.mpr hr]
  · simp [enableQPU, mailboxCall, hr, not_lt.mp hr]

/-- C6: Mailbox::allocateBuffer always sends the firmware allocation request
with the alignment raised to the maximum of PAGE_ALIGNMENT (the host page
size) and the caller-requested alignment, which is at least each of the two;
the first message of every run is that allocation request. -/
theorem allocateBuffer_alignment_raised :
    ∀ (fw : Fw) (busToPhys : Nat → Nat) (mapmem : Nat → Nat → Nat) (s a f : Nat),
      (allocateBuffer fw busToPhys mapmem s a f).2.head? =
        some (.mbox (allocMsg s (max PAGE_ALIGNMENT a) f)) ∧
      PAGE_ALIGNMENT ≤ max PAGE_ALIGNMENT a ∧ a ≤ max PAGE_ALIGNMENT a := by
  intro fw busToPhys mapmem s a f
  refine ⟨?_, le_max_left _ _, le_max_right _ _⟩
  unfold allocateBuffer
  rcases hm : (memAlloc fw s (max PAGE_ALIGNMENT a) f).1 with e | handle
  · simp [hm, memAlloc_trace]
  · by_cases hh : handle ≠ 0
    · simp only [hm, hh, if_true, if_pos]
      rcases hl : (memLock fw handle).1 with e2 | q
      · simp [hl, hh, memAlloc_trace]
      · simp [hl, hh, memAlloc_trace]
    · simp [hm, hh, memAlloc_trace]

/-- C10: Mailbox::mailboxCall either throws on a negative ioctl result or
returns the non-negative ioctl result unchanged; consequently, in each of the
seven higher-level operations the failure branch guarding a negative
mailboxCall value never fires: every operation is extensionally equal to its
variant with that guard removed. -/
theorem mailboxCall_negative_branch_unreachable : ∀ fw : Fw,
    (∀ msg : MboxMsg,
      if (fw msg).ret < 0 then (mailboxCall fw msg).1 = .error (fw msg).errno
      else (mailboxCall fw msg).1 = .ok ((fw msg).ret, (fw msg).content)) ∧
    (∀ s a f : Nat, memAlloc fw s a f = memAllocNoGuard fw s a f) ∧
    (∀ handle : Nat, memLock fw handle = memLockNoGuard fw handle) ∧
    (∀ handle : Nat, memUnlock fw handle = memUnlockNoGuard fw handle) ∧
    (∀ handle : Nat, memFree fw handle = memFreeNoGuard fw handle) ∧
    (∀ ca r0 r1 r2 r3 r4 r5 : Nat,
      executeCode fw ca r0 r1 r2 r3 r4 r5 = executeCodeNoGuard fw ca r0 r1 r2 r3 r4 r5) ∧
    (∀ (n : Nat) (ctrl : Nat × Nat) (fl : Bool) (t : Int),
      executeQPU fw n ctrl fl t = executeQPUNoGuard fw n ctrl fl t) ∧
    (∀ en : Bool, enableQPU fw en = enableQPUNoGuard fw en) := by
  intro fw
  refine ⟨?_, ?_, ?_, ?_, ?_, ?_, ?_, ?_⟩
  · intro msg
    by_cases hr : (fw msg).ret < 0 <;> simp [mailboxCall, hr]
  · intro s a f
    by_cases hr : (fw (allocMsg s a f)).ret < 0 <;>
      simp [memAlloc, memAllocNoGuard, mailboxCall, hr]
  · intro handle
    by_cases hr : (fw (lockMsg handle)).ret < 0 <;>
      simp [memLock, memLockNoGuard, mailboxCall, hr]
  · intro handle
    by_cases hr : (fw (unlockMsg handle)).ret < 0 <;>
      simp [memUnlock, memUnlockNoGuard, mailboxCall, hr]
  · intro handle
    by_cases hr : (fw (freeMsg handle)).ret < 0 <;>
      simp [memFree, memFreeNoGuard, mailboxCall, hr]
  · intro ca r0 r1 r2 r3 r4 r5
    by_cases hr : (fw (execCodeMsg ca r0 r1 r2 r3 r4 r5)).ret < 0 <;>
      simp [executeCode, executeCodeNoGuard, mailboxCall, hr]
  · intro n ctrl fl t
    by_cases hr : (fw (execQPUMsg n ctrl fl t)).ret < 0 <;>
      simp [executeQPU, executeQPUNoGuard, mailboxCall, hr]
  · intro en
    by_cases hr : (fw (enableMsg en)).ret < 0 <;>
      simp [enableQPU, enableQPUNoGuard, mailboxCall, hr]

end VC4CL
